import Mathlib

/-!
Shallow embedding of the radio3 speech-synthesis caching service.

The repository contains two near-duplicate Flask servers:
  * `src/workers/tts-server/server.py`  (namespace `TtsServer` below): MD5 cache
    key over `"{text}:{model}:{speed}"`, a memoized `load_model` registry, a
    try/except around the compute path, `length_scale = 1.0/speed`.
  * `src/workers/piper-tts/server.py` (namespace `PiperTts` below): SHA-256 cache
    key over the text alone, a single voice loaded at startup, no try/except,
    `synthesize_wav` called without any length scale.

Conventions of the embedding:
  * byte strings are `List Nat` (each element a byte value);
  * Python floats are modelled as rationals (`ℚ`), exact where the concrete
    inputs used are exactly representable in binary floating point;
  * the filesystem cache directory is an association list from key strings to
    byte strings (later writes shadow earlier ones, as file overwrite does);
  * cryptographic digests (md5/sha256 hexdigest) are modelled as the identity
    on their input string: a digest is a fixed deterministic function, so key
    equality of the model transfers to key equality of the code, and key
    inequality transfers modulo the negligible collision probability that the
    specification itself allows for ("with overwhelming probability");
  * exceptions escaping the Flask handler (a generic 500) are the `uncaught`
    result; `jsonify(...), 400` / `..., 500` responses are `badRequest` /
    `serverError`;
  * the state carries instrumentation fields (`loadCount`, `synthCalls`)
    recording backend load and synthesis invocations, mirroring the
    specification's "observable via a load counter/mock".
-/

/-- Association-list lookup; models both the Python dict lookup used for
`loaded_models` and the existence/read of `CACHE_DIR` files keyed by digest. -/
def alookup {α : Type} (l : List (String × α)) (k : String) : Option α :=
  match l with
  | [] => none
  | (k', v) :: rest => if k' = k then some v else alookup rest k

/-- Little-endian 16-bit field as written by Python's `struct.pack` inside the
`wave` module writer. -/
def u16le (n : Nat) : List Nat := [n % 256, n / 256 % 256]

/-- Little-endian 32-bit field as written by Python's `struct.pack` inside the
`wave` module writer. -/
def u32le (n : Nat) : List Nat :=
  [n % 256, n / 256 % 256, n / 65536 % 256, n / 16777216 % 256]

/-- The exact byte sequence Python's `wave` writer produces for an
uncompressed PCM file with the given channel count, sample width (bytes),
frame rate and payload: the fixed 44-byte RIFF/WAVE/fmt/data header followed
by the frames. -/
def wavEncode (channels width rate : Nat) (pcm : List Nat) : List Nat :=
  [82, 73, 70, 70] ++ u32le (36 + pcm.length) ++
  [87, 65, 86, 69, 102, 109, 116, 32] ++ u32le 16 ++ u16le 1 ++
  u16le channels ++ u32le rate ++ u32le (rate * channels * width) ++
  u16le (channels * width) ++ u16le (8 * width) ++
  [100, 97, 116, 97] ++ u32le pcm.length ++ pcm

/-- Byte at an index (0 beyond the end, never reached on well-formed input). -/
def byteAt (bs : List Nat) (i : Nat) : Nat := bs.getD i 0

/-- Little-endian 16-bit read, as `wave`'s header parsing does. -/
def readU16 (bs : List Nat) (i : Nat) : Nat := byteAt bs i + 256 * byteAt bs (i + 1)

/-- Little-endian 32-bit read, as `wave`'s header parsing does. -/
def readU32 (bs : List Nat) (i : Nat) : Nat :=
  byteAt bs i + 256 * byteAt bs (i + 1) + 65536 * byteAt bs (i + 2) +
    16777216 * byteAt bs (i + 3)

/-- Header parse performed by `wave.open(..., 'rb')` on the PCM files this
system produces (the `wave` reader walks RIFF chunks; on files written by the
`wave` writer — the only bytes this service ever stores or probes — the walk
resolves to the fixed 44-byte layout checked here).  Returns
(rate, channels, sample width, data-chunk size) or `none` for a malformed
header (`wave.Error`). -/
def wavParse (bs : List Nat) : Option (Nat × Nat × Nat × Nat) :=
  if List.take 4 bs = [82, 73, 70, 70] ∧
     List.take 4 (List.drop 8 bs) = [87, 65, 86, 69] ∧
     List.take 4 (List.drop 12 bs) = [102, 109, 116, 32] ∧
     readU32 bs 16 = 16 ∧ readU16 bs 20 = 1 ∧
     List.take 4 (List.drop 36 bs) = [100, 97, 116, 97] then
    some (readU32 bs 24, readU16 bs 22, (readU16 bs 34 + 7) / 8, readU32 bs 40)
  else none

/-- The duration probe `wav.getnframes() / float(wav.getframerate())` used by
both handlers: frame count is the data-chunk size divided by the frame size,
taken from the header only; `none` models the exception raised on a malformed
header or a zero frame size / frame rate. -/
def wavDuration (bs : List Nat) : Option ℚ :=
  match wavParse bs with
  | none => none
  | some (rate, ch, w, ds) =>
    if ch * w = 0 ∨ rate = 0 then none
    else some (((ds / (ch * w) : Nat) : ℚ) / (rate : ℚ))

/-- Round to the nearest integer, ties to even — the rounding Python's built-in
`round` uses. -/
def roundHalfEven (q : ℚ) : ℤ :=
  let f := ⌊q⌋
  let r := q - (f : ℚ)
  if r < 1 / 2 then f
  else if 1 / 2 < r then f + 1
  else if 2 ∣ f then f else f + 1

/-- Python's `round(x, 2)` on the (exactly representable) durations arising
here: round half-to-even at two decimal places. -/
def pyRound2 (q : ℚ) : ℚ := (roundHalfEven (q * 100) : ℚ) / 100

/-- Decimal digit characters (little-endian) of a natural number. -/
def digitChars (n : Nat) : List Char :=
  (Nat.digits 10 n).map fun d => Char.ofNat (48 + d)

/-- Character rendering of an integer: an optional minus sign and digits. -/
def intChars (i : Int) : List Char :=
  if i < 0 then Char.ofNat 45 :: digitChars i.natAbs else digitChars i.natAbs

/-- Rendering of the request's speed value as it is interpolated into the
f-string building the cache key.  Python renders the float with `repr`, the
shortest decimal string that round-trips, which is an injective function of
the float value; the model renders the rational in reduced form
(numerator, separator, denominator), likewise injective — the exact digit
shapes differ, but every claim depends only on equality or inequality of the
rendered strings, which both renderings decide identically. -/
def formatSpeed (q : ℚ) : String :=
  String.mk (intChars q.num ++ Char.ofNat 47 :: digitChars q.den)

lemma char48_toNat {d : Nat} (hd : d < 10) : (Char.ofNat (48 + d)).toNat = 48 + d := by
  interval_cases d <;> decide

lemma char48_inj {d1 d2 : Nat} (h1 : d1 < 10) (h2 : d2 < 10)
    (h : Char.ofNat (48 + d1) = Char.ofNat (48 + d2)) : d1 = d2 := by
  have e1 := char48_toNat h1
  have e2 := char48_toNat h2
  have e := congrArg Char.toNat h
  omega

lemma digitList_map_inj (l1 : List Nat) : ∀ l2 : List Nat,
    (∀ d ∈ l1, d < 10) → (∀ d ∈ l2, d < 10) →
    l1.map (fun d => Char.ofNat (48 + d)) = l2.map (fun d => Char.ofNat (48 + d)) →
    l1 = l2 := by
  induction l1 with
  | nil => intro l2 _ _ h; cases l2 <;> simp_all
  | cons a l1 ih =>
    intro l2 hb1 hb2 h
    cases l2 with
    | nil => simp at h
    | cons b l2 =>
      simp only [List.map_cons, List.cons.injEq] at h
      have ha : a = b := char48_inj (hb1 a (by simp)) (hb2 b (by simp)) h.1
      rw [ha, ih l2 (fun d hd => hb1 d (by simp [hd])) (fun d hd => hb2 d (by simp [hd])) h.2]

lemma digits10_lt (n : Nat) : ∀ d ∈ Nat.digits 10 n, d < 10 :=
  fun _ hd => Nat.digits_lt_base (by norm_num) hd

lemma digitChars_inj {m n : Nat} (h : digitChars m = digitChars n) : m = n := by
  have hd : Nat.digits 10 m = Nat.digits 10 n :=
    digitList_map_inj _ _ (digits10_lt m) (digits10_lt n) h
  have e := congrArg (Nat.ofDigits 10) hd
  rwa [Nat.ofDigits_digits, Nat.ofDigits_digits] at e

lemma minus_ne_char48 {d : Nat} (hd : d < 10) : Char.ofNat 45 ≠ Char.ofNat (48 + d) := by
  intro h
  have e := char48_toNat hd
  have h45 : (Char.ofNat 45).toNat = 45 := by decide
  rw [← h, h45] at e
  omega

lemma intChars_inj {i j : Int} (h : intChars i = intChars j) : i = j := by
  by_cases hi : i < 0 <;> by_cases hj : j < 0
  · rw [intChars, intChars, if_pos hi, if_pos hj] at h
    have h2 : digitChars i.natAbs = digitChars j.natAbs := by injection h
    have := digitChars_inj h2
    omega
  · exfalso
    rw [intChars, intChars, if_pos hi, if_neg hj] at h
    simp only [digitChars] at h
    cases hn : Nat.digits 10 j.natAbs with
    | nil => rw [hn] at h; simp at h
    | cons d rest =>
      rw [hn, List.map_cons] at h
      have hd : Char.ofNat 45 = Char.ofNat (48 + d) := by injection h
      exact minus_ne_char48 (digits10_lt j.natAbs d (by rw [hn]; simp)) hd
  · exfalso
    rw [intChars, intChars, if_neg hi, if_pos hj] at h
    simp only [digitChars] at h
    cases hn : Nat.digits 10 i.natAbs with
    | nil => rw [hn] at h; simp at h
    | cons d rest =>
      rw [hn, List.map_cons] at h
      have hd : Char.ofNat (48 + d) = Char.ofNat 45 := by injection h
      exact minus_ne_char48 (digits10_lt i.natAbs d (by rw [hn]; simp)) hd.symm
  · rw [intChars, intChars, if_neg hi, if_neg hj] at h
    have := digitChars_inj h
    omega

lemma sep_not_mem_digitChars (n : Nat) : Char.ofNat 47 ∉ digitChars n := by
  intro hmem
  rw [digitChars] at hmem
  obtain ⟨d, hd, he⟩ := List.mem_map.mp hmem
  have e := char48_toNat (digits10_lt n d hd)
  have h47 : (Char.ofNat 47).toNat = 47 := by decide
  rw [he, h47] at e
  have := digits10_lt n d hd
  omega

lemma sep_not_mem_intChars (i : Int) : Char.ofNat 47 ∉ intChars i := by
  intro hmem
  rw [intChars] at hmem
  by_cases hi : i < 0 <;> simp only [hi, if_true, if_false, List.mem_cons] at hmem
  · rcases hmem with h | h
    · have h47 : (Char.ofNat 47).toNat = 47 := by decide
      have h45 : (Char.ofNat 45).toNat = 45 := by decide
      have := congrArg Char.toNat h
      rw [h47, h45] at this
      omega
    · exact sep_not_mem_digitChars _ h
  · exact sep_not_mem_digitChars _ hmem

lemma append_sep_inj {α : Type} (sep : α) : ∀ l1 l2 r1 r2 : List α, sep ∉ l1 → sep ∉ l2 →
    l1 ++ sep :: r1 = l2 ++ sep :: r2 → l1 = l2 ∧ r1 = r2 := by
  intro l1
  induction l1 with
  | nil =>
    intro l2 r1 r2 _ hs2 h
    cases l2 with
    | nil => simpa using h
    | cons b l2 =>
      simp only [List.nil_append, List.cons_append, List.cons.injEq] at h
      exact absurd (h.1 ▸ List.mem_cons_self b l2) hs2
  | cons a l1 ih =>
    intro l2 r1 r2 hs1 hs2 h
    cases l2 with
    | nil =>
      simp only [List.cons_append, List.nil_append, List.cons.injEq] at h
      exact absurd (h.1 ▸ List.mem_cons_self a l1) hs1
    | cons b l2 =>
      simp only [List.cons_append, List.cons.injEq] at h
      obtain ⟨hl, hr⟩ := ih l2 r1 r2 (fun hm => hs1 (List.mem_cons_of_mem a hm))
        (fun hm => hs2 (List.mem_cons_of_mem b hm)) h.2
      exact ⟨by rw [h.1, hl], hr⟩

/-- The speed rendering is injective: distinct speed values produce distinct
substrings of the cache-key input. -/
theorem formatSpeed_inj {q1 q2 : ℚ} (h : formatSpeed q1 = formatSpeed q2) : q1 = q2 := by
  have hdata : intChars q1.num ++ Char.ofNat 47 :: digitChars q1.den =
      intChars q2.num ++ Char.ofNat 47 :: digitChars q2.den := congrArg String.data h
  obtain ⟨hnum, hden⟩ := append_sep_inj (Char.ofNat 47) _ _ _ _
    (sep_not_mem_intChars q1.num) (sep_not_mem_intChars q2.num) hdata
  exact Rat.ext (intChars_inj hnum) (digitChars_inj hden)

/-- The md5 hexdigest of tts-server's cache-key derivation, modelled as the
identity on its input: a digest is a fixed deterministic function (so equal
inputs give equal keys), and distinct inputs give distinct digests except with
the negligible collision probability that the specification's own "with
overwhelming probability" clause sets aside. -/
def md5hex (s : String) : String := s

/-- The sha256 hexdigest of piper-tts's cache-key derivation, modelled as the
identity for the same reason as `md5hex`. -/
def sha256hex (s : String) : String := s

/-- The value found under the "speed" key of the request JSON before the
`float(...)` coercion: missing, a JSON number, a numeric string, or a string
that `float` cannot parse. -/
inductive SpeedVal where
  | absent
  | num (q : ℚ)
  | numStr (q : ℚ)
  | badStr (s : String)
deriving DecidableEq

/-- Models `float(data.get('speed', 1.0))`: the default for a missing field,
identity on numbers, parse of numeric strings, and a raised `ValueError` on
unparseable strings (an `error` here is an exception at the coercion site). -/
def coerceSpeed : SpeedVal → Except String ℚ
  | .absent => .ok 1
  | .num q => .ok q
  | .numStr q => .ok q
  | .badStr s => .error ("could not convert string to float: " ++ s)

/-- A request body as a client may send it.  `text` of `""` covers both a
missing and an empty text field — the handlers test only truthiness
(`if not text`).  `model` and `useCache` are `none` when the field is absent
(the handlers apply defaults); the piper-tts handler simply ignores `model`
and `speed`. -/
structure Request where
  text : String
  model : Option String
  speed : SpeedVal
  useCache : Option Bool
deriving DecidableEq

namespace TtsServer

/-- The canonical tuple encoding `f"{text}:{model_name}:{speed}"` of
src/workers/tts-server/server.py line 69. -/
def canonicalKeyInput (text model_name : String) (speed : ℚ) : String :=
  text ++ ":" ++ model_name ++ ":" ++ formatSpeed speed

/-- The cache key `hashlib.md5(f"{text}:{model_name}:{speed}".encode()).hexdigest()`. -/
def cache_key (text model_name : String) (speed : ℚ) : String :=
  md5hex (canonicalKeyInput text model_name speed)

/-- The environment the handler runs in: which `.onnx` assets exist under
`MODELS_DIR`, what handle `PiperVoice.load` yields for each, and the backend
`voice.synthesize(text, wav_file, length_scale=...)`, which either raises or
writes a PCM stream with some channel count / sample width / rate / frames. -/
structure Env where
  models : List String
  loadVoice : String → Nat
  synth : Nat → String → ℚ → Except String (Nat × Nat × Nat × List Nat)

/-- Mutable process state: the cache directory (later writes shadow earlier
files, as overwrite does), the `loaded_models` dict, plus two instrumentation
fields counting `PiperVoice.load` calls and recording each backend synthesis
invocation `(handle, text, length_scale)` — the "load counter/mock" the
specification's testable properties refer to. -/
structure St where
  cache : List (String × List Nat)
  loaded_models : List (String × Nat)
  loadCount : Nat
  synthCalls : List (Nat × String × ℚ)
deriving DecidableEq

/-- Mirror of `load_model` (server.py lines 26-37): return the memoized handle,
else load from disk if the asset exists (recording the handle and counting the
load), else raise `FileNotFoundError`. -/
def load_model (env : Env) (st : St) (model_name : String) : St × Except String Nat :=
  match alookup st.loaded_models model_name with
  | some v => (st, .ok v)
  | none =>
    if model_name ∈ env.models then
      let v := env.loadVoice model_name
      ({ st with loaded_models := (model_name, v) :: st.loaded_models,
                 loadCount := st.loadCount + 1 }, .ok v)
    else (st, .error ("Model not found: " ++ model_name))

/-- Outcome of one request, as the HTTP layer sees it. -/
inductive Result where
  | ok (audio : List Nat) (duration : ℚ) (model : String) (cached : Bool)
  | badRequest (msg : String)
  | serverError (msg : String)
  | uncaught (msg : String)
deriving DecidableEq

/-- Outcome of the handler's prefix up to and including the cache-existence
check (server.py lines 58-87): either the handler already has its reply, or
it proceeds to the synthesis block with the parsed fields and key. -/
inductive CheckOutcome where
  | reply (res : Result)
  | miss (text model_name : String) (speed : ℚ) (use_cache : Bool) (key : String)
deriving DecidableEq

/-- Lines 58-87 of server.py: coerce speed (an unparseable value raises before
anything else), default the model and use_cache fields, reject empty text with
a 400, derive the key, and serve a hit from the cache file — recomputing the
duration from the stored bytes, outside any try/except. -/
def ttsCheck (st : St) (r : Request) : CheckOutcome :=
  match coerceSpeed r.speed with
  | .error e => .reply (.uncaught e)
  | .ok speed =>
    if r.text = "" then .reply (.badRequest "Missing text parameter")
    else
      match (if r.useCache.getD true then
               alookup st.cache (cache_key r.text (r.model.getD "en_US-lessac-medium") speed)
             else none) with
      | some bytes =>
        match wavDuration bytes with
        | some d => .reply (.ok bytes (pyRound2 d) (r.model.getD "en_US-lessac-medium") true)
        | none => .reply (.uncaught "wave.Error")
      | none =>
        .miss r.text (r.model.getD "en_US-lessac-medium") speed (r.useCache.getD true)
          (cache_key r.text (r.model.getD "en_US-lessac-medium") speed)

/-- Lines 90-119 of server.py, the try/except block: resolve the model
(`FileNotFoundError` is caught → 500), evaluate `1.0/speed` (zero speed raises
`ZeroDivisionError`, caught → 500), synthesize (backend errors caught → 500),
write the cache file when `use_cache`, then probe the duration of the fresh
bytes (still inside the try). -/
def ttsCompute (env : Env) (st : St) (text model_name : String) (speed : ℚ)
    (use_cache : Bool) (key : String) : St × Result :=
  match load_model env st model_name with
  | (st1, .error e) => (st1, .serverError e)
  | (st1, .ok voice) =>
    if speed = 0 then (st1, .serverError "float division by zero")
    else
      match env.synth voice text (1 / speed) with
      | .error e =>
        ({ st1 with synthCalls := (voice, text, 1 / speed) :: st1.synthCalls }, .serverError e)
      | .ok (channels, width, rate, pcm) =>
        match wavDuration (wavEncode channels width rate pcm) with
        | some d =>
          ((if use_cache then
              { st1 with synthCalls := (voice, text, 1 / speed) :: st1.synthCalls,
                         cache := (key, wavEncode channels width rate pcm) :: st1.cache }
            else { st1 with synthCalls := (voice, text, 1 / speed) :: st1.synthCalls }),
            .ok (wavEncode channels width rate pcm) (pyRound2 d) model_name false)
        | none =>
          ((if use_cache then
              { st1 with synthCalls := (voice, text, 1 / speed) :: st1.synthCalls,
                         cache := (key, wavEncode channels width rate pcm) :: st1.cache }
            else { st1 with synthCalls := (voice, text, 1 / speed) :: st1.synthCalls }),
            .serverError "wave.Error")

/-- The whole `/synthesize` handler of src/workers/tts-server/server.py. -/
def synthesize (env : Env) (st : St) (r : Request) : St × Result :=
  match ttsCheck st r with
  | .reply res => (st, res)
  | .miss text model_name speed use_cache key =>
    ttsCompute env st text model_name speed use_cache key

end TtsServer

namespace PiperTts

/-- The cache key `hashlib.sha256(text.encode()).hexdigest()` of
src/workers/piper-tts/server.py line 39: a function of the text alone. -/
def cache_key (text : String) : String := sha256hex text

/-- Environment of the piper-tts server: the single voice loaded at startup,
exposed as the backend call `voice.synthesize_wav(text, wav_file)`.  The
second argument is the length scale the backend applies; the handler always
passes 1 because `synthesize_wav` is invoked without any length-scale
parameter (server.py line 65), i.e. with its default, unscaled length. -/
structure Env where
  synthWav : String → ℚ → Except String (Nat × Nat × Nat × List Nat)

/-- State of the piper-tts server: the cache directory and the record of
backend invocations `(text, length scale)`. -/
structure St where
  cache : List (String × List Nat)
  synthCalls : List (String × ℚ)
deriving DecidableEq

/-- Outcome of one request.  This handler has no try/except, so every failure
after validation escapes as an uncaught exception (generic 500). -/
inductive Result where
  | ok (audio : List Nat) (duration : ℚ) (cached : Bool)
  | badRequest (msg : String)
  | uncaught (msg : String)
deriving DecidableEq

/-- The `/synthesize` handler of src/workers/piper-tts/server.py (lines
29-90): reject empty text, serve a hit (recomputing duration from the stored
bytes), otherwise synthesize — note `model` and `speed` are never read — then
compute the duration and only afterwards write the cache file. -/
def synthesize (env : Env) (st : St) (r : Request) : St × Result :=
  if r.text = "" then (st, .badRequest "Text is required")
  else
    match (if r.useCache.getD true then alookup st.cache (cache_key r.text) else none) with
    | some bytes =>
      match wavDuration bytes with
      | some d => (st, .ok bytes (pyRound2 d) true)
      | none => (st, .uncaught "wave.Error")
    | none =>
      match env.synthWav r.text 1 with
      | .error e => ({ st with synthCalls := (r.text, 1) :: st.synthCalls }, .uncaught e)
      | .ok (channels, width, rate, pcm) =>
        match wavDuration (wavEncode channels width rate pcm) with
        | some d =>
          ((if r.useCache.getD true then
              { st with synthCalls := (r.text, 1) :: st.synthCalls,
                        cache := (cache_key r.text, wavEncode channels width rate pcm) :: st.cache }
            else { st with synthCalls := (r.text, 1) :: st.synthCalls }),
            .ok (wavEncode channels width rate pcm) (pyRound2 d) false)
        | none => ({ st with synthCalls := (r.text, 1) :: st.synthCalls }, .uncaught "wave.Error")

end PiperTts

namespace TtsServer

/-- Progress of one concurrent request through the handler: it has not yet
run the cache-existence check, it has observed a miss and is about to enter
the synthesis block, or it has its reply. -/
inductive Phase where
  | start
  | missed (text model_name : String) (speed : ℚ) (use_cache : Bool) (key : String)
  | finished (res : Result)
deriving DecidableEq

/-- One scheduler step of thread `i`, all threads serving the same request
`r`.  The handler has no lock of any kind, so the split into the two regions
it actually consists of — the check up to `cache_file.exists()` (a read-only
region) and the synthesize-and-store block — is sound: every interleaving of
these coarse atomic regions is a behaviour the real server can exhibit
(making the regions atomic only removes finer interleavings, it adds none). -/
def stepThread (env : Env) (r : Request) (s : St × List Phase) (i : Nat) : St × List Phase :=
  match s.2.get? i with
  | some .start =>
    match ttsCheck s.1 r with
    | .reply res => (s.1, s.2.set i (.finished res))
    | .miss text model_name speed use_cache key =>
      (s.1, s.2.set i (.missed text model_name speed use_cache key))
  | some (.missed text model_name speed use_cache key) =>
    let (st', res) := ttsCompute env s.1 text model_name speed use_cache key
    (st', s.2.set i (.finished res))
  | _ => s

/-- Run a schedule: the list of thread indices in the order the scheduler
lets them take their next step. -/
def runSched (env : Env) (r : Request) (s : St × List Phase) : List Nat → St × List Phase
  | [] => s
  | i :: rest => runSched env r (stepThread env r s i) rest

/-- Observer: did a thread finish with a 200 ok reply. -/
def finishedOk : Phase → Bool
  | .finished (.ok _ _ _ _) => true
  | _ => false

end TtsServer

-- Sanity: the WAV header round-trips through encode/parse.
example : wavParse (wavEncode 1 2 22050 [0, 0, 0, 0]) = some (22050, 1, 2, 4) := by decide

lemma readU32_wavEncode_24 (c w r : Nat) (p : List Nat) :
    readU32 (wavEncode c w r p) 24 =
      r % 256 + 256 * (r / 256 % 256) + 65536 * (r / 65536 % 256) +
        16777216 * (r / 16777216 % 256) := by
  simp [readU32, wavEncode, u16le, u32le, byteAt]

lemma readU16_wavEncode_22 (c w r : Nat) (p : List Nat) :
    readU16 (wavEncode c w r p) 22 = c % 256 + 256 * (c / 256 % 256) := by
  simp [readU16, wavEncode, u16le, u32le, byteAt]

lemma readU16_wavEncode_34 (c w r : Nat) (p : List Nat) :
    readU16 (wavEncode c w r p) 34 = 8 * w % 256 + 256 * (8 * w / 256 % 256) := by
  simp [readU16, wavEncode, u16le, u32le, byteAt]

lemma readU32_wavEncode_40 (c w r : Nat) (p : List Nat) :
    readU32 (wavEncode c w r p) 40 =
      p.length % 256 + 256 * (p.length / 256 % 256) + 65536 * (p.length / 65536 % 256) +
        16777216 * (p.length / 16777216 % 256) := by
  simp [readU32, wavEncode, u16le, u32le, byteAt]

lemma u32_decompose (a : Nat) (h : a < 4294967296) :
    a % 256 + 256 * (a / 256 % 256) + 65536 * (a / 65536 % 256) +
      16777216 * (a / 16777216 % 256) = a := by omega

lemma u16_decompose (a : Nat) (h : a < 65536) : a % 256 + 256 * (a / 256 % 256) = a := by
  omega

/-- Parsing the header of a freshly written PCM file recovers exactly the
rate, channel count, sample width and payload size that were written, as long
as every header field fits its 16/32-bit slot. -/
theorem wavParse_wavEncode (c w r : Nat) (p : List Nat) (hc : c < 65536)
    (hw : 8 * w < 65536) (hr : r < 4294967296) (hp : p.length < 4294967296) :
    wavParse (wavEncode c w r p) = some (r, c, w, p.length) := by
  have h1 : List.take 4 (wavEncode c w r p) = [82, 73, 70, 70] := by
    simp [wavEncode, u16le, u32le]
  have h2 : List.take 4 (List.drop 8 (wavEncode c w r p)) = [87, 65, 86, 69] := by
    simp [wavEncode, u16le, u32le]
  have h3 : List.take 4 (List.drop 12 (wavEncode c w r p)) = [102, 109, 116, 32] := by
    simp [wavEncode, u16le, u32le]
  have h4 : readU32 (wavEncode c w r p) 16 = 16 := by
    simp [readU32, wavEncode, u16le, u32le, byteAt]
  have h5 : readU16 (wavEncode c w r p) 20 = 1 := by
    simp [readU16, wavEncode, u16le, u32le, byteAt]
  have h6 : List.take 4 (List.drop 36 (wavEncode c w r p)) = [100, 97, 116, 97] := by
    simp [wavEncode, u16le, u32le]
  rw [wavParse, if_pos ⟨h1, h2, h3, h4, h5, h6⟩]
  rw [readU32_wavEncode_24, readU16_wavEncode_22, readU16_wavEncode_34, readU32_wavEncode_40]
  rw [u32_decompose r hr, u16_decompose c hc, u16_decompose (8 * w) hw,
    u32_decompose p.length hp]
  have hw8 : (8 * w + 7) / 8 = w := by omega
  rw [hw8]

/-- The duration probe on a freshly written PCM file yields exactly
frame count / sample rate, where the frame count is the payload size divided
by the frame size. -/
theorem wavDuration_wavEncode (c w r : Nat) (p : List Nat) (hc : c < 65536)
    (hw : 8 * w < 65536) (hr : r < 4294967296) (hp : p.length < 4294967296)
    (hcw : c * w ≠ 0) (hr0 : r ≠ 0) :
    wavDuration (wavEncode c w r p) = some (((p.length / (c * w) : Nat) : ℚ) / (r : ℚ)) := by
  rw [wavDuration, wavParse_wavEncode c w r p hc hw hr hp]
  simp [hcw, hr0]

example : wavDuration (wavEncode 1 1 8 [7, 7, 7, 7, 7]) = some (5 / 8) := by
  have h : wavParse (wavEncode 1 1 8 [7, 7, 7, 7, 7]) = some (8, 1, 1, 5) := by decide
  rw [wavDuration, h]
  norm_num
example : pyRound2 (5 / 8) = 31 / 50 := by
  have h : roundHalfEven (5 / 8 * 100) = 62 := by
    rw [roundHalfEven]
    norm_num
  rw [pyRound2, h]
  norm_num
example : pyRound2 (1 / 3) = 33 / 100 := by
  have h : roundHalfEven (1 / 3 * 100) = 33 := by
    rw [roundHalfEven]
    norm_num
  rw [pyRound2, h]
  norm_num



lemma str_append_cancel_right {s t u : String} (h : s ++ u = t ++ u) : s = t := by
  apply String.ext
  have hd := congrArg String.data h
  rw [String.data_append, String.data_append] at hd
  exact List.append_cancel_right hd

lemma str_append_cancel_left {s t u : String} (h : u ++ s = u ++ t) : s = t := by
  apply String.ext
  have hd := congrArg String.data h
  rw [String.data_append, String.data_append] at hd
  exact List.append_cancel_left hd

/-- C1, counterexample: in the piper-tts server the derived cache key is a
function of the text alone, so two requests that differ only in their
speedFactor — and two that differ only in their voiceId — derive the same
key, contradicting the claim that requests differing in any one of the three
fields derive different keys. -/
theorem C1_counterexample :
    PiperTts.cache_key (Request.mk "hello" (some "v1") (.num 1) (some true)).text =
      PiperTts.cache_key (Request.mk "hello" (some "v1") (.num 2) (some true)).text ∧
    (Request.mk "hello" (some "v1") (.num 1) (some true)).speed ≠
      (Request.mk "hello" (some "v1") (.num 2) (some true)).speed ∧
    PiperTts.cache_key (Request.mk "hello" (some "v1") (.num 1) (some true)).text =
      PiperTts.cache_key (Request.mk "hello" (some "v2") (.num 1) (some true)).text ∧
    (Request.mk "hello" (some "v1") (.num 1) (some true)).model ≠
      (Request.mk "hello" (some "v2") (.num 1) (some true)).model :=
  ⟨rfl, by decide, rfl, by decide⟩

/-- C1 (amended): cache-key derivation is deterministic in both servers.  In
tts-server the key is derived from the full tuple (text, voiceId,
speedFactor) and requests differing in exactly one of the three fields derive
different keys (with overwhelming probability, settled at the digest-input
level).  In piper-tts the key is derived from the text alone: it coincides
for two requests exactly when their texts coincide, regardless of voiceId or
speedFactor. -/
theorem C1_cache_key :
    (∀ t1 t2 m1 m2 : String, ∀ s1 s2 : ℚ, t1 = t2 → m1 = m2 → s1 = s2 →
      TtsServer.cache_key t1 m1 s1 = TtsServer.cache_key t2 m2 s2) ∧
    (∀ t1 t2 m : String, ∀ s : ℚ, t1 ≠ t2 →
      TtsServer.cache_key t1 m s ≠ TtsServer.cache_key t2 m s) ∧
    (∀ t m1 m2 : String, ∀ s : ℚ, m1 ≠ m2 →
      TtsServer.cache_key t m1 s ≠ TtsServer.cache_key t m2 s) ∧
    (∀ t m : String, ∀ s1 s2 : ℚ, s1 ≠ s2 →
      TtsServer.cache_key t m s1 ≠ TtsServer.cache_key t m s2) ∧
    (∀ t1 t2 : String, PiperTts.cache_key t1 = PiperTts.cache_key t2 ↔ t1 = t2) := by
  refine ⟨?_, ?_, ?_, ?_, ?_⟩
  · intro t1 t2 m1 m2 s1 s2 ht hm hs
    rw [ht, hm, hs]
  · intro t1 t2 m s ht h
    rw [TtsServer.cache_key, TtsServer.cache_key, md5hex, md5hex,
      TtsServer.canonicalKeyInput, TtsServer.canonicalKeyInput] at h
    exact ht (str_append_cancel_right (str_append_cancel_right
      (str_append_cancel_right (str_append_cancel_right h))))
  · intro t m1 m2 s hm h
    rw [TtsServer.cache_key, TtsServer.cache_key, md5hex, md5hex,
      TtsServer.canonicalKeyInput, TtsServer.canonicalKeyInput] at h
    exact hm (str_append_cancel_left (str_append_cancel_right (str_append_cancel_right h)))
  · intro t m s1 s2 hs h
    rw [TtsServer.cache_key, TtsServer.cache_key, md5hex, md5hex,
      TtsServer.canonicalKeyInput, TtsServer.canonicalKeyInput] at h
    exact hs (formatSpeed_inj (str_append_cancel_left h))
  · intro t1 t2
    exact ⟨fun h => h, fun h => by rw [h]⟩

/-- C1, witness: the amended statement applied at concrete keys. -/
theorem C1_cache_key_witness :
    TtsServer.cache_key "a" "m" 1 = TtsServer.cache_key "a" "m" 1 ∧
    TtsServer.cache_key "a" "m" 1 ≠ TtsServer.cache_key "b" "m" 1 ∧
    TtsServer.cache_key "a" "m" 1 ≠ TtsServer.cache_key "a" "n" 1 ∧
    TtsServer.cache_key "a" "m" 1 ≠ TtsServer.cache_key "a" "m" 2 ∧
    PiperTts.cache_key "a" = PiperTts.cache_key "a" :=
  ⟨C1_cache_key.1 "a" "a" "m" "m" 1 1 rfl rfl rfl,
   C1_cache_key.2.1 "a" "b" "m" 1 (by decide),
   C1_cache_key.2.2.1 "a" "m" "n" 1 (by decide),
   C1_cache_key.2.2.2.1 "a" "m" 1 2 (by decide),
   (C1_cache_key.2.2.2.2 "a" "a").mpr rfl⟩

/-- C7: VoiceModelRegistry.resolve (load_model) is idempotent: once a resolve
for a voiceId has succeeded with handle v, resolving it again returns the very
same handle and leaves the state — including the load counter — untouched, so
the expensive construction runs at most once per voiceId. -/
theorem C7_load_model_idempotent (env : TtsServer.Env) (st st1 : TtsServer.St)
    (name : String) (v : Nat)
    (h : TtsServer.load_model env st name = (st1, .ok v)) :
    TtsServer.load_model env st1 name = (st1, .ok v) := by
  unfold TtsServer.load_model at h ⊢
  cases hl : alookup st.loaded_models name with
  | some v' =>
    simp only [hl] at h
    injection h with h1 h2
    injection h2 with h2
    subst h1; subst h2
    simp [hl]
  | none =>
    simp only [hl] at h
    by_cases hm : name ∈ env.models
    · simp only [if_pos hm] at h
      injection h with h1 h2
      injection h2 with h2
      subst h1; subst h2
      simp [alookup]
    · simp only [if_neg hm] at h
      injection h with h1 h2
      exact absurd h2 (by simp)

/-- C7, witness: resolving "m" on a fresh registry loads it (handle 7, one
load), and resolving it again returns the same handle with no second load. -/
theorem C7_load_model_idempotent_witness :
    TtsServer.load_model (TtsServer.Env.mk ["m"] (fun _ => 7) (fun _ _ _ => .error "x"))
        (TtsServer.St.mk [] [("m", 7)] 1 []) "m" =
      (TtsServer.St.mk [] [("m", 7)] 1 [], .ok 7) :=
  C7_load_model_idempotent (TtsServer.Env.mk ["m"] (fun _ => 7) (fun _ _ _ => .error "x"))
    (TtsServer.St.mk [] [] 0 []) (TtsServer.St.mk [] [("m", 7)] 1 []) "m" 7 rfl

/-- C10: in the tts-server handler `float(data.get('speed', 1.0))` runs before
the text check, so any request whose speed value float() cannot parse raises
an uncaught ValueError (a generic 500), even when text is missing or empty,
and the state is untouched. -/
theorem C10_bad_speed_uncaught (env : TtsServer.Env) (st : TtsServer.St)
    (r : Request) (s : String) (h : r.speed = .badStr s) :
    TtsServer.synthesize env st r =
      (st, .uncaught ("could not convert string to float: " ++ s)) := by
  have hc : TtsServer.ttsCheck st r =
      .reply (.uncaught ("could not convert string to float: " ++ s)) := by
    rw [TtsServer.ttsCheck, h]
    rfl
  rw [TtsServer.synthesize, hc]

/-- C10, witness: a request with empty text and an unparseable speed yields
the uncaught ValueError, not the 400 InvalidRequest reply. -/
theorem C10_bad_speed_uncaught_witness :
    TtsServer.synthesize (TtsServer.Env.mk [] (fun _ => 0) (fun _ _ _ => .error "x"))
        (TtsServer.St.mk [] [] 0 []) (Request.mk "" none (.badStr "fast") none) =
      (TtsServer.St.mk [] [] 0 [], .uncaught ("could not convert string to float: " ++ "fast")) :=
  C10_bad_speed_uncaught (TtsServer.Env.mk [] (fun _ => 0) (fun _ _ _ => .error "x"))
    (TtsServer.St.mk [] [] 0 []) (Request.mk "" none (.badStr "fast") none) "fast" rfl

lemma load_model_hit (env : TtsServer.Env) (st : TtsServer.St) (n : String) (v : Nat)
    (h : alookup st.loaded_models n = some v) :
    TtsServer.load_model env st n = (st, .ok v) := by
  unfold TtsServer.load_model
  simp only [h]

lemma load_model_load (env : TtsServer.Env) (st : TtsServer.St) (n : String)
    (h : alookup st.loaded_models n = none) (hm : n ∈ env.models) :
    TtsServer.load_model env st n =
      ({ st with loaded_models := (n, env.loadVoice n) :: st.loaded_models,
                 loadCount := st.loadCount + 1 }, .ok (env.loadVoice n)) := by
  unfold TtsServer.load_model
  simp only [h, if_pos hm]

lemma load_model_missing (env : TtsServer.Env) (st : TtsServer.St) (n : String)
    (h : alookup st.loaded_models n = none) (hm : n ∉ env.models) :
    TtsServer.load_model env st n = (st, .error ("Model not found: " ++ n)) := by
  unfold TtsServer.load_model
  simp only [h, if_neg hm]

lemma load_model_cache (env : TtsServer.Env) (st : TtsServer.St) (n : String) :
    (TtsServer.load_model env st n).1.cache = st.cache := by
  unfold TtsServer.load_model
  cases hl : alookup st.loaded_models n
  · simp only [hl]
    split <;> rfl
  · simp only [hl]

lemma ttsCheck_nocache (st : TtsServer.St) (r : Request) (sp : ℚ)
    (hsp : coerceSpeed r.speed = .ok sp) (ht : r.text ≠ "") (huc : r.useCache = some false) :
    TtsServer.ttsCheck st r =
      .miss r.text (r.model.getD "en_US-lessac-medium") sp false
        (TtsServer.cache_key r.text (r.model.getD "en_US-lessac-medium") sp) := by
  simp only [TtsServer.ttsCheck, hsp]
  rw [if_neg ht]
  simp only [huc, Option.getD_some]
  rfl

lemma ttsCompute_cache_false (env : TtsServer.Env) (st : TtsServer.St)
    (t mn : String) (sp : ℚ) (k : String) :
    (TtsServer.ttsCompute env st t mn sp false k).1.cache = st.cache := by
  have hlc := load_model_cache env st mn
  unfold TtsServer.ttsCompute
  cases hl : TtsServer.load_model env st mn with
  | mk st1 res =>
    rw [hl] at hlc
    cases res with
    | error e => simp only [hl]; exact hlc
    | ok v =>
      simp only [hl]
      by_cases hz : sp = 0
      · simp only [if_pos hz]; exact hlc
      · simp only [if_neg hz]
        cases hsy : env.synth v t (1 / sp) with
        | error e => exact hlc
        | ok q =>
          obtain ⟨channels, width, rate, pcm⟩ := q
          cases hd : wavDuration (wavEncode channels width rate pcm) with
          | none => simp only [hd]; exact hlc
          | some d => simp only [hd]; exact hlc

lemma ttsCompute_snd_cache_irrel (env : TtsServer.Env)
    (cc cc' : List (String × List Nat)) (lm : List (String × Nat)) (lc : Nat)
    (sc : List (Nat × String × ℚ)) (t mn : String) (sp : ℚ) (k : String) :
    (TtsServer.ttsCompute env (TtsServer.St.mk cc lm lc sc) t mn sp false k).2 =
      (TtsServer.ttsCompute env (TtsServer.St.mk cc' lm lc sc) t mn sp false k).2 := by
  unfold TtsServer.ttsCompute
  cases hl : alookup lm mn with
  | some v =>
    rw [load_model_hit env (TtsServer.St.mk cc lm lc sc) mn v hl,
      load_model_hit env (TtsServer.St.mk cc' lm lc sc) mn v hl]
    by_cases hz : sp = 0
    · simp only [if_pos hz]
    · simp only [if_neg hz]
      cases hsy : env.synth v t (1 / sp) with
      | error e => rfl
      | ok q =>
        obtain ⟨channels, width, rate, pcm⟩ := q
        cases hd : wavDuration (wavEncode channels width rate pcm) <;> simp only [hd]
  | none =>
    by_cases hm : mn ∈ env.models
    · rw [load_model_load env (TtsServer.St.mk cc lm lc sc) mn hl hm,
        load_model_load env (TtsServer.St.mk cc' lm lc sc) mn hl hm]
      by_cases hz : sp = 0
      · simp only [if_pos hz]
      · simp only [if_neg hz]
        cases hsy : env.synth (env.loadVoice mn) t (1 / sp) with
        | error e => rfl
        | ok q =>
          obtain ⟨channels, width, rate, pcm⟩ := q
          cases hd : wavDuration (wavEncode channels width rate pcm) <;> simp only [hd]
    · rw [load_model_missing env (TtsServer.St.mk cc lm lc sc) mn hl hm,
        load_model_missing env (TtsServer.St.mk cc' lm lc sc) mn hl hm]

/-- C4: with useCache=false the whole operation bypasses the persisted store:
the handler takes the compute path unconditionally (never serving a hit), the
cache is left exactly as it was, the reply is independent of the cache
contents (nothing is read), and a key that would have been a guaranteed hit
is still absent afterwards; the piper-tts handler likewise always invokes the
backend (its synthesis log grows by exactly this request) and neither reads
nor writes its cache. -/
theorem C4_useCache_false_bypasses_store (env : TtsServer.Env) (penv : PiperTts.Env)
    (r : Request) (sp : ℚ)
    (hsp : coerceSpeed r.speed = .ok sp) (ht : r.text ≠ "")
    (huc : r.useCache = some false) :
    (∀ st : TtsServer.St,
      TtsServer.synthesize env st r =
        TtsServer.ttsCompute env st r.text (r.model.getD "en_US-lessac-medium") sp false
          (TtsServer.cache_key r.text (r.model.getD "en_US-lessac-medium") sp)) ∧
    (∀ st : TtsServer.St, (TtsServer.synthesize env st r).1.cache = st.cache) ∧
    (∀ cc cc' : List (String × List Nat), ∀ lm : List (String × Nat), ∀ lc : Nat,
      ∀ sc : List (Nat × String × ℚ),
      (TtsServer.synthesize env (TtsServer.St.mk cc lm lc sc) r).2 =
        (TtsServer.synthesize env (TtsServer.St.mk cc' lm lc sc) r).2) ∧
    (∀ st : TtsServer.St, ∀ k : String, alookup st.cache k = none →
      alookup (TtsServer.synthesize env st r).1.cache k = none) ∧
    (∀ pst : PiperTts.St, (PiperTts.synthesize penv pst r).1.cache = pst.cache ∧
      (PiperTts.synthesize penv pst r).1.synthCalls = (r.text, 1) :: pst.synthCalls) ∧
    (∀ pc pc' : List (String × List Nat), ∀ ps : List (String × ℚ),
      (PiperTts.synthesize penv (PiperTts.St.mk pc ps) r).2 =
        (PiperTts.synthesize penv (PiperTts.St.mk pc' ps) r).2) := by
  have hmain : ∀ st : TtsServer.St,
      TtsServer.synthesize env st r =
        TtsServer.ttsCompute env st r.text (r.model.getD "en_US-lessac-medium") sp false
          (TtsServer.cache_key r.text (r.model.getD "en_US-lessac-medium") sp) := by
    intro st
    rw [TtsServer.synthesize, ttsCheck_nocache st r sp hsp ht huc]
  have hpiper : ∀ pst : PiperTts.St,
      PiperTts.synthesize penv pst r =
        (match penv.synthWav r.text 1 with
         | .error e => ({ pst with synthCalls := (r.text, 1) :: pst.synthCalls },
             PiperTts.Result.uncaught e)
         | .ok (channels, width, rate, pcm) =>
           match wavDuration (wavEncode channels width rate pcm) with
           | some d => ({ pst with synthCalls := (r.text, 1) :: pst.synthCalls },
               PiperTts.Result.ok (wavEncode channels width rate pcm) (pyRound2 d) false)
           | none => ({ pst with synthCalls := (r.text, 1) :: pst.synthCalls },
               PiperTts.Result.uncaught "wave.Error")) := by
    intro pst
    rw [PiperTts.synthesize, if_neg ht]
    simp only [huc, Option.getD_some, Bool.false_eq_true, if_false]
  refine ⟨hmain, ?_, ?_, ?_, ?_, ?_⟩
  · intro st
    rw [hmain st]
    exact ttsCompute_cache_false env st r.text _ sp _
  · intro cc cc' lm lc sc
    rw [hmain (TtsServer.St.mk cc lm lc sc), hmain (TtsServer.St.mk cc' lm lc sc)]
    exact ttsCompute_snd_cache_irrel env cc cc' lm lc sc r.text _ sp _
  · intro st k hk
    rw [hmain st, ttsCompute_cache_false env st r.text _ sp _]
    exact hk
  · intro pst
    rw [hpiper pst]
    cases hsy : penv.synthWav r.text 1 with
    | error e => exact ⟨rfl, rfl⟩
    | ok q =>
      obtain ⟨channels, width, rate, pcm⟩ := q
      dsimp only
      cases hd : wavDuration (wavEncode channels width rate pcm) <;> simp [hd]
  · intro pc pc' ps
    rw [hpiper (PiperTts.St.mk pc ps), hpiper (PiperTts.St.mk pc' ps)]
    cases hsy : penv.synthWav r.text 1 with
    | error e => rfl
    | ok q =>
      obtain ⟨channels, width, rate, pcm⟩ := q
      dsimp only
      cases hd : wavDuration (wavEncode channels width rate pcm) <;> simp only [hd]

/-- C4, witness: a concrete useCache=false request computes fresh audio, logs
one backend call in each server, and leaves the (previously empty) caches
empty. -/
theorem C4_useCache_false_bypasses_store_witness :
    (TtsServer.synthesize (TtsServer.Env.mk ["m"] (fun _ => 7) (fun _ _ _ => .ok (1, 1, 8, [0])))
        (TtsServer.St.mk [] [] 0 []) (Request.mk "hi" (some "m") (.num 1) (some false))).1.cache
      = (TtsServer.St.mk [] [] 0 []).cache ∧
    (PiperTts.synthesize (PiperTts.Env.mk (fun _ _ => .ok (1, 1, 8, [0])))
        (PiperTts.St.mk [] []) (Request.mk "hi" (some "m") (.num 1) (some false))).1.cache
      = (PiperTts.St.mk [] []).cache :=
  ⟨((C4_useCache_false_bypasses_store
      (TtsServer.Env.mk ["m"] (fun _ => 7) (fun _ _ _ => .ok (1, 1, 8, [0])))
      (PiperTts.Env.mk (fun _ _ => .ok (1, 1, 8, [0])))
      (Request.mk "hi" (some "m") (.num 1) (some false)) 1 rfl (by decide) rfl).2.1
        (TtsServer.St.mk [] [] 0 [])),
   ((C4_useCache_false_bypasses_store
      (TtsServer.Env.mk ["m"] (fun _ => 7) (fun _ _ _ => .ok (1, 1, 8, [0])))
      (PiperTts.Env.mk (fun _ _ => .ok (1, 1, 8, [0])))
      (Request.mk "hi" (some "m") (.num 1) (some false)) 1 rfl (by decide) rfl).2.2.2.2.1
        (PiperTts.St.mk [] [])).1⟩

lemma ttsCheck_miss (st : TtsServer.St) (r : Request) (sp : ℚ)
    (hsp : coerceSpeed r.speed = .ok sp) (ht : r.text ≠ "")
    (hl : alookup st.cache
      (TtsServer.cache_key r.text (r.model.getD "en_US-lessac-medium") sp) = none) :
    TtsServer.ttsCheck st r =
      .miss r.text (r.model.getD "en_US-lessac-medium") sp (r.useCache.getD true)
        (TtsServer.cache_key r.text (r.model.getD "en_US-lessac-medium") sp) := by
  simp only [TtsServer.ttsCheck, hsp]
  rw [if_neg ht]
  cases hb : r.useCache.getD true <;> simp [hb, hl]

lemma piper_miss (penv : PiperTts.Env) (pst : PiperTts.St) (r : Request)
    (ht : r.text ≠ "") (hl : alookup pst.cache (PiperTts.cache_key r.text) = none) :
    PiperTts.synthesize penv pst r =
      (match penv.synthWav r.text 1 with
       | .error e => ({ pst with synthCalls := (r.text, 1) :: pst.synthCalls },
           PiperTts.Result.uncaught e)
       | .ok (channels, width, rate, pcm) =>
         match wavDuration (wavEncode channels width rate pcm) with
         | some d =>
           ((if r.useCache.getD true then
               { pst with synthCalls := (r.text, 1) :: pst.synthCalls,
                          cache := (PiperTts.cache_key r.text,
                            wavEncode channels width rate pcm) :: pst.cache }
             else { pst with synthCalls := (r.text, 1) :: pst.synthCalls }),
             PiperTts.Result.ok (wavEncode channels width rate pcm) (pyRound2 d) false)
         | none => ({ pst with synthCalls := (r.text, 1) :: pst.synthCalls },
             PiperTts.Result.uncaught "wave.Error")) := by
  rw [PiperTts.synthesize, if_neg ht]
  cases hb : r.useCache.getD true <;> simp [hb, hl]

/-- C5: when the compute path fails the error is surfaced and the persisted
cache is unchanged — no entry, partial or complete, appears under the
request's key.  Three failure shapes: (i) tts-server ModelNotFound (the
FileNotFoundError of load_model, caught and returned as a 500) leaves the
whole state untouched; (ii) tts-server SynthesisFailed (backend error, caught
as a 500) leaves the cache exactly as it was, the failed attempt's key still
absent; (iii) piper-tts backend failure escapes as an uncaught error (generic
500) with the cache unchanged. -/
theorem C5_failure_no_cache_entry :
    (∀ env : TtsServer.Env, ∀ st : TtsServer.St, ∀ r : Request, ∀ sp : ℚ,
      coerceSpeed r.speed = .ok sp → r.text ≠ "" →
      alookup st.cache
        (TtsServer.cache_key r.text (r.model.getD "en_US-lessac-medium") sp) = none →
      alookup st.loaded_models (r.model.getD "en_US-lessac-medium") = none →
      r.model.getD "en_US-lessac-medium" ∉ env.models →
      TtsServer.synthesize env st r =
        (st, .serverError ("Model not found: " ++ r.model.getD "en_US-lessac-medium"))) ∧
    (∀ env : TtsServer.Env, ∀ st st1 : TtsServer.St, ∀ r : Request, ∀ sp : ℚ, ∀ v : Nat,
      ∀ err : String,
      coerceSpeed r.speed = .ok sp → r.text ≠ "" →
      alookup st.cache
        (TtsServer.cache_key r.text (r.model.getD "en_US-lessac-medium") sp) = none →
      TtsServer.load_model env st (r.model.getD "en_US-lessac-medium") = (st1, .ok v) →
      sp ≠ 0 → env.synth v r.text (1 / sp) = .error err →
      TtsServer.synthesize env st r =
          ({ st1 with synthCalls := (v, r.text, 1 / sp) :: st1.synthCalls },
            .serverError err) ∧
        st1.cache = st.cache) ∧
    (∀ penv : PiperTts.Env, ∀ pst : PiperTts.St, ∀ r : Request, ∀ err : String,
      r.text ≠ "" → alookup pst.cache (PiperTts.cache_key r.text) = none →
      penv.synthWav r.text 1 = .error err →
      PiperTts.synthesize penv pst r =
        ({ pst with synthCalls := (r.text, 1) :: pst.synthCalls },
          PiperTts.Result.uncaught err)) := by
  refine ⟨?_, ?_, ?_⟩
  · intro env st r sp hsp ht hl hlm hmm
    rw [TtsServer.synthesize, ttsCheck_miss st r sp hsp ht hl]
    dsimp only
    unfold TtsServer.ttsCompute
    rw [load_model_missing env st _ hlm hmm]
  · intro env st st1 r sp v err hsp ht hl hload hz hsy
    have hc1 := load_model_cache env st (r.model.getD "en_US-lessac-medium")
    rw [hload] at hc1
    refine ⟨?_, hc1⟩
    rw [TtsServer.synthesize, ttsCheck_miss st r sp hsp ht hl]
    dsimp only
    unfold TtsServer.ttsCompute
    rw [hload]
    dsimp only
    rw [if_neg hz]
    simp only [hsy]
  · intro penv pst r err ht hl hsy
    rw [piper_miss penv pst r ht hl]
    simp only [hsy]

/-- C5, witness: the three failure shapes at concrete inputs — a missing
model asset, a backend that raises in tts-server, and a backend that raises
in piper-tts — each surface the error and leave the empty cache empty. -/
theorem C5_failure_no_cache_entry_witness :
    TtsServer.synthesize (TtsServer.Env.mk [] (fun _ => 0) (fun _ _ _ => .error "x"))
        (TtsServer.St.mk [] [] 0 []) (Request.mk "hi" (some "nope") (.num 1) (some true)) =
      (TtsServer.St.mk [] [] 0 [], .serverError ("Model not found: " ++ "nope")) ∧
    (TtsServer.synthesize (TtsServer.Env.mk ["m"] (fun _ => 7) (fun _ _ _ => .error "boom"))
        (TtsServer.St.mk [] [] 0 []) (Request.mk "hi" (some "m") (.num 1) (some true)) =
      (TtsServer.St.mk [] [("m", 7)] 1 [(7, "hi", 1 / 1)], .serverError "boom") ∧
      (TtsServer.St.mk [] [("m", 7)] 1 ([] : List (Nat × String × ℚ))).cache =
        (TtsServer.St.mk [] [] 0 []).cache) ∧
    PiperTts.synthesize (PiperTts.Env.mk (fun _ _ => .error "boom"))
        (PiperTts.St.mk [] []) (Request.mk "hi" none (.num 1) (some true)) =
      (PiperTts.St.mk [] [("hi", 1)], PiperTts.Result.uncaught "boom") :=
  ⟨C5_failure_no_cache_entry.1 (TtsServer.Env.mk [] (fun _ => 0) (fun _ _ _ => .error "x"))
      (TtsServer.St.mk [] [] 0 []) (Request.mk "hi" (some "nope") (.num 1) (some true)) 1
      rfl (by decide) rfl rfl (by decide),
   C5_failure_no_cache_entry.2.1 (TtsServer.Env.mk ["m"] (fun _ => 7) (fun _ _ _ => .error "boom"))
      (TtsServer.St.mk [] [] 0 []) (TtsServer.St.mk [] [("m", 7)] 1 [])
      (Request.mk "hi" (some "m") (.num 1) (some true)) 1 7 "boom"
      rfl (by decide) rfl rfl (by decide) rfl,
   C5_failure_no_cache_entry.2.2 (PiperTts.Env.mk (fun _ _ => .error "boom"))
      (PiperTts.St.mk [] []) (Request.mk "hi" none (.num 1) (some true)) "boom"
      (by decide) rfl rfl⟩

lemma ttsCheck_hit (st : TtsServer.St) (r : Request) (sp : ℚ) (bytes : List Nat) (d : ℚ)
    (hsp : coerceSpeed r.speed = .ok sp) (ht : r.text ≠ "")
    (huc : r.useCache.getD true = true)
    (hl : alookup st.cache
      (TtsServer.cache_key r.text (r.model.getD "en_US-lessac-medium") sp) = some bytes)
    (hd : wavDuration bytes = some d) :
    TtsServer.ttsCheck st r =
      .reply (.ok bytes (pyRound2 d) (r.model.getD "en_US-lessac-medium") true) := by
  simp only [TtsServer.ttsCheck, hsp]
  rw [if_neg ht]
  simp [huc, hl, hd]

lemma ttsCheck_reply_ok_inv (st : TtsServer.St) (r : Request) (bytes : List Nat)
    (dur : ℚ) (mn : String) (cached : Bool)
    (h : TtsServer.ttsCheck st r = .reply (.ok bytes dur mn cached)) :
    ∃ sp d, coerceSpeed r.speed = .ok sp ∧ r.text ≠ "" ∧ r.useCache.getD true = true ∧
      alookup st.cache
        (TtsServer.cache_key r.text (r.model.getD "en_US-lessac-medium") sp) = some bytes ∧
      wavDuration bytes = some d ∧ dur = pyRound2 d ∧
      mn = r.model.getD "en_US-lessac-medium" ∧ cached = true := by
  rw [TtsServer.ttsCheck] at h
  split at h
  · simp at h
  next sp hsp =>
    split at h
    next hte => simp at h
    next hte =>
      split at h
      next bytes0 hlk =>
        split at h
        next d hd =>
          simp only [TtsServer.CheckOutcome.reply.injEq, TtsServer.Result.ok.injEq] at h
          obtain ⟨hb, hdur, hmn, hcached⟩ := h
          subst hb
          cases hb2 : r.useCache.getD true with
          | false => rw [hb2] at hlk; simp at hlk
          | true =>
            rw [hb2] at hlk
            simp only [if_true] at hlk
            exact ⟨sp, d, hsp, hte, rfl, hlk, hd, hdur.symm, hmn.symm, hcached.symm⟩
        next hd => simp at h
      next hlk => simp at h

lemma ttsCheck_miss_inv (st : TtsServer.St) (r : Request) (t mn0 : String) (sp : ℚ)
    (uc : Bool) (k : String)
    (h : TtsServer.ttsCheck st r = .miss t mn0 sp uc k) :
    coerceSpeed r.speed = .ok sp ∧ r.text ≠ "" ∧ t = r.text ∧
    mn0 = r.model.getD "en_US-lessac-medium" ∧ uc = r.useCache.getD true ∧
    k = TtsServer.cache_key r.text (r.model.getD "en_US-lessac-medium") sp ∧
    (if r.useCache.getD true = true then alookup st.cache k else none) = none := by
  rw [TtsServer.ttsCheck] at h
  split at h
  · simp at h
  next sp0 hsp =>
    split at h
    next hte => simp at h
    next hte =>
      split at h
      next bytes0 hlk =>
        split at h
        next d hd => simp at h
        next hd => simp at h
      next hlk =>
        simp only [TtsServer.CheckOutcome.miss.injEq] at h
        obtain ⟨h1, h2, h3, h4, h5⟩ := h
        subst h1; subst h2; subst h3; subst h4; subst h5
        exact ⟨hsp, hte, rfl, rfl, rfl, rfl, hlk⟩

lemma ttsCompute_ok_inv (env : TtsServer.Env) (st : TtsServer.St) (t mn0 : String)
    (sp : ℚ) (uc : Bool) (k : String) (st1 : TtsServer.St) (bytes : List Nat)
    (dur : ℚ) (mn : String) (cached : Bool)
    (h : TtsServer.ttsCompute env st t mn0 sp uc k = (st1, .ok bytes dur mn cached)) :
    ∃ stL v channels width rate pcm d,
      TtsServer.load_model env st mn0 = (stL, .ok v) ∧ sp ≠ 0 ∧
      env.synth v t (1 / sp) = .ok (channels, width, rate, pcm) ∧
      bytes = wavEncode channels width rate pcm ∧
      wavDuration bytes = some d ∧ dur = pyRound2 d ∧ mn = mn0 ∧ cached = false ∧
      st1 = (if uc then
               { stL with synthCalls := (v, t, 1 / sp) :: stL.synthCalls,
                          cache := (k, bytes) :: stL.cache }
             else { stL with synthCalls := (v, t, 1 / sp) :: stL.synthCalls }) := by
  unfold TtsServer.ttsCompute at h
  split at h
  next stL e heq => simp at h
  next stL v heq =>
    split at h
    next hz => simp at h
    next hz =>
      split at h
      next e hsy => simp at h
      next channels width rate pcm hsy =>
        split at h
        next d hd =>
          simp only [Prod.mk.injEq, TtsServer.Result.ok.injEq] at h
          obtain ⟨hst1, hb, hdur, hmn, hcached⟩ := h
          subst hb
          exact ⟨stL, v, channels, width, rate, pcm, d, heq, hz, hsy, rfl, hd,
            hdur.symm, hmn.symm, hcached.symm, hst1.symm⟩
        next hd => simp at h

/-- C3: synthesize is idempotent under caching: if a call with
useCache=true (explicit or defaulted) succeeds, then repeating the identical
request against the resulting state returns byte-identical audio with the
same duration and reports cached=true, and those bytes are exactly the entry
stored under the request's cache key; the same holds for the piper-tts
handler. -/
theorem C3_synthesize_idempotent :
    (∀ env : TtsServer.Env, ∀ st st1 : TtsServer.St, ∀ r : Request,
      ∀ bytes : List Nat, ∀ dur : ℚ, ∀ mn : String, ∀ cached : Bool,
      r.useCache.getD true = true →
      TtsServer.synthesize env st r = (st1, .ok bytes dur mn cached) →
      TtsServer.synthesize env st1 r = (st1, .ok bytes dur mn true) ∧
      ∃ sp, coerceSpeed r.speed = .ok sp ∧
        alookup st1.cache
          (TtsServer.cache_key r.text (r.model.getD "en_US-lessac-medium") sp) = some bytes) ∧
    (∀ penv : PiperTts.Env, ∀ pst pst1 : PiperTts.St, ∀ r : Request,
      ∀ bytes : List Nat, ∀ dur : ℚ, ∀ cached : Bool,
      r.useCache.getD true = true →
      PiperTts.synthesize penv pst r = (pst1, .ok bytes dur cached) →
      PiperTts.synthesize penv pst1 r = (pst1, .ok bytes dur true) ∧
      alookup pst1.cache (PiperTts.cache_key r.text) = some bytes) := by
  constructor
  · intro env st st1 r bytes dur mn cached huc h
    rw [TtsServer.synthesize] at h
    split at h
    next res heq =>
      injection h with h1 h2
      subst h1; subst h2
      obtain ⟨sp, d, hsp, ht, _, hlk, hd, hdur, hmn, _⟩ :=
        ttsCheck_reply_ok_inv st r bytes dur mn cached heq
      subst hdur; subst hmn
      refine ⟨?_, sp, hsp, hlk⟩
      rw [TtsServer.synthesize, ttsCheck_hit st r sp bytes d hsp ht huc hlk hd]
    next t mn0 sp0 uc k heq =>
      obtain ⟨hsp, ht, htt, hmn0, huc0, hk, _⟩ :=
        ttsCheck_miss_inv st r t mn0 sp0 uc k heq
      subst htt; subst hmn0; subst huc0; subst hk
      obtain ⟨stL, v, channels, width, rate, pcm, d, hload, hz, hsy, hb, hd, hdur, hmn,
        hcached, hst1⟩ := ttsCompute_ok_inv env st _ _ _ _ _ st1 bytes dur mn cached h
      subst hdur; subst hmn; subst hb
      rw [huc, if_pos rfl] at hst1
      have hlk1 : alookup st1.cache
          (TtsServer.cache_key r.text (r.model.getD "en_US-lessac-medium") sp0)
            = some (wavEncode channels width rate pcm) := by
        rw [hst1]
        simp [alookup]
      refine ⟨?_, sp0, hsp, hlk1⟩
      rw [TtsServer.synthesize,
        ttsCheck_hit st1 r sp0 (wavEncode channels width rate pcm) d hsp ht huc hlk1 hd]
  · intro penv pst pst1 r bytes dur cached huc h
    rw [PiperTts.synthesize] at h
    simp only [huc, reduceIte] at h
    split at h
    next hte => simp at h
    next hte =>
      have hhit : ∀ d, wavDuration bytes = some d → dur = pyRound2 d →
          alookup pst1.cache (PiperTts.cache_key r.text) = some bytes →
          PiperTts.synthesize penv pst1 r = (pst1, .ok bytes dur true) ∧
            alookup pst1.cache (PiperTts.cache_key r.text) = some bytes := by
        intro d hd hdur hlk1
        subst hdur
        refine ⟨?_, hlk1⟩
        rw [PiperTts.synthesize, if_neg hte]
        simp [huc, hlk1, hd]
      split at h
      next bytes0 hlk =>
        split at h
        next d hd =>
          simp only [Prod.mk.injEq, PiperTts.Result.ok.injEq] at h
          obtain ⟨hst1, hb, hdur, _⟩ := h
          subst hst1; subst hb
          exact hhit d hd hdur.symm hlk
        next hd => simp at h
      next hlk =>
        split at h
        next e hsy => simp at h
        next channels width rate pcm hsy =>
          split at h
          next d hd =>
            simp only [Prod.mk.injEq, PiperTts.Result.ok.injEq] at h
            obtain ⟨hst1, hb, hdur, _⟩ := h
            subst hb
            subst hst1
            refine hhit d hd hdur.symm ?_
            simp [alookup]
          next hd => simp at h

/-- C3, witness: a first cold-cache call succeeds with cached=false; applying
the theorem to it, the identical second call returns the same bytes with
cached=true, and the bytes are the stored entry. -/
theorem C3_synthesize_idempotent_witness :
    TtsServer.synthesize (TtsServer.Env.mk ["m"] (fun _ => 7) (fun _ _ _ => .ok (1, 1, 8, [9, 9, 9, 9])))
        (TtsServer.St.mk [(TtsServer.cache_key "hi" "m" 1, wavEncode 1 1 8 [9, 9, 9, 9])]
          [("m", 7)] 1 [(7, "hi", 1 / 1)])
        (Request.mk "hi" (some "m") (.num 1) none) =
      (TtsServer.St.mk [(TtsServer.cache_key "hi" "m" 1, wavEncode 1 1 8 [9, 9, 9, 9])]
          [("m", 7)] 1 [(7, "hi", 1 / 1)],
        .ok (wavEncode 1 1 8 [9, 9, 9, 9]) (pyRound2 (1 / 2)) "m" true) := by
  have hfirst : TtsServer.synthesize
      (TtsServer.Env.mk ["m"] (fun _ => 7) (fun _ _ _ => .ok (1, 1, 8, [9, 9, 9, 9])))
      (TtsServer.St.mk [] [] 0 []) (Request.mk "hi" (some "m") (.num 1) none) =
      (TtsServer.St.mk [(TtsServer.cache_key "hi" "m" 1, wavEncode 1 1 8 [9, 9, 9, 9])]
          [("m", 7)] 1 [(7, "hi", 1 / 1)],
        .ok (wavEncode 1 1 8 [9, 9, 9, 9]) (pyRound2 (1 / 2)) "m" false) := by
    rw [TtsServer.synthesize,
      ttsCheck_miss (TtsServer.St.mk [] [] 0 []) (Request.mk "hi" (some "m") (.num 1) none) 1
        rfl (by decide) rfl]
    dsimp only
    unfold TtsServer.ttsCompute
    simp only [Option.getD_some, Option.getD_none]
    rw [load_model_load
      (TtsServer.Env.mk ["m"] (fun _ => 7) (fun _ _ _ => .ok (1, 1, 8, [9, 9, 9, 9])))
      (TtsServer.St.mk [] [] 0 []) "m" rfl (by decide)]
    dsimp only
    rw [if_neg (by decide : ¬(1 : ℚ) = 0)]
    have hd : wavDuration (wavEncode 1 1 8 [9, 9, 9, 9]) = some (1 / 2) := by
      have hp : wavParse (wavEncode 1 1 8 [9, 9, 9, 9]) = some (8, 1, 1, 4) := by decide
      rw [wavDuration, hp]
      norm_num
    simp [hd]
  exact ((C3_synthesize_idempotent.1
    (TtsServer.Env.mk ["m"] (fun _ => 7) (fun _ _ _ => .ok (1, 1, 8, [9, 9, 9, 9])))
    (TtsServer.St.mk [] [] 0 [])
    (TtsServer.St.mk [(TtsServer.cache_key "hi" "m" 1, wavEncode 1 1 8 [9, 9, 9, 9])]
      [("m", 7)] 1 [(7, "hi", 1 / 1)])
    (Request.mk "hi" (some "m") (.num 1) none)
    (wavEncode 1 1 8 [9, 9, 9, 9]) (pyRound2 (1 / 2)) "m" false rfl hfirst).1)

/-- C9, counterexample: the piper-tts handler never reads the request speed:
the backend is invoked with the default (unscaled) length scale 1 even for a
request with speedFactor 2, for which the claimed invocation would use length
scale 1/2. -/
theorem C9_counterexample :
    (PiperTts.synthesize (PiperTts.Env.mk (fun _ _ => .error "x"))
        (PiperTts.St.mk [] []) (Request.mk "hello" none (.num 2) none)).1.synthCalls
      = [("hello", 1)] ∧
    coerceSpeed (Request.mk "hello" none (.num 2) none).speed = .ok 2 ∧
    (1 : ℚ) ≠ 1 / 2 :=
  ⟨rfl, rfl, by norm_num⟩

/-- C9 (amended): in tts-server every synthesis request that reaches the
backend invokes it with length scale 1/speedFactor (the inverse scaling, so a
higher speedFactor means shorter audio); in piper-tts the speed factor is
ignored and the backend is always invoked with the default length scale 1. -/
theorem C9_inverse_length_scale :
    (∀ env : TtsServer.Env, ∀ st st1 : TtsServer.St, ∀ r : Request, ∀ sp : ℚ, ∀ v : Nat,
      coerceSpeed r.speed = .ok sp → r.text ≠ "" →
      alookup st.cache
        (TtsServer.cache_key r.text (r.model.getD "en_US-lessac-medium") sp) = none →
      TtsServer.load_model env st (r.model.getD "en_US-lessac-medium") = (st1, .ok v) →
      sp ≠ 0 →
      (TtsServer.synthesize env st r).1.synthCalls = (v, r.text, 1 / sp) :: st1.synthCalls) ∧
    (∀ penv : PiperTts.Env, ∀ pst : PiperTts.St, ∀ r : Request,
      r.text ≠ "" → alookup pst.cache (PiperTts.cache_key r.text) = none →
      (PiperTts.synthesize penv pst r).1.synthCalls = (r.text, 1) :: pst.synthCalls) := by
  constructor
  · intro env st st1 r sp v hsp ht hl hload hz
    rw [TtsServer.synthesize, ttsCheck_miss st r sp hsp ht hl]
    dsimp only
    unfold TtsServer.ttsCompute
    rw [hload]
    dsimp only
    rw [if_neg hz]
    cases hsy : env.synth v r.text (1 / sp) with
    | error e => rfl
    | ok q =>
      obtain ⟨channels, width, rate, pcm⟩ := q
      dsimp only
      cases hd : wavDuration (wavEncode channels width rate pcm) <;>
        cases hb : r.useCache.getD true <;> simp [hd, hb]
  · intro penv pst r ht hl
    rw [piper_miss penv pst r ht hl]
    cases hsy : penv.synthWav r.text 1 with
    | error e => rfl
    | ok q =>
      obtain ⟨channels, width, rate, pcm⟩ := q
      dsimp only
      cases hd : wavDuration (wavEncode channels width rate pcm) <;>
        cases hb : r.useCache.getD true <;> simp [hd, hb]

/-- C9, witness: a tts-server request with speedFactor 2 invokes the backend
with length scale 1/2; a piper-tts request invokes it with scale 1. -/
theorem C9_inverse_length_scale_witness :
    (TtsServer.synthesize (TtsServer.Env.mk ["m"] (fun _ => 7) (fun _ _ _ => .error "x"))
        (TtsServer.St.mk [] [] 0 []) (Request.mk "hi" (some "m") (.num 2) (some true))).1.synthCalls
      = (7, "hi", 1 / 2) :: (TtsServer.St.mk [] [("m", 7)] 1 []).synthCalls ∧
    (PiperTts.synthesize (PiperTts.Env.mk (fun _ _ => .error "x"))
        (PiperTts.St.mk [] []) (Request.mk "bye" none (.num 2) (some true))).1.synthCalls
      = ("bye", 1) :: (PiperTts.St.mk [] []).synthCalls :=
  ⟨C9_inverse_length_scale.1 (TtsServer.Env.mk ["m"] (fun _ => 7) (fun _ _ _ => .error "x"))
      (TtsServer.St.mk [] [] 0 []) (TtsServer.St.mk [] [("m", 7)] 1 [])
      (Request.mk "hi" (some "m") (.num 2) (some true)) 2 7 rfl (by decide) rfl rfl (by decide),
   C9_inverse_length_scale.2 (PiperTts.Env.mk (fun _ _ => .error "x"))
      (PiperTts.St.mk [] []) (Request.mk "bye" none (.num 2) (some true)) (by decide) rfl⟩

lemma piper_ok_duration (penv : PiperTts.Env) (pst pst1 : PiperTts.St) (r : Request)
    (bytes : List Nat) (dur : ℚ) (cached : Bool)
    (h : PiperTts.synthesize penv pst r = (pst1, .ok bytes dur cached)) :
    ∃ d, wavDuration bytes = some d ∧ dur = pyRound2 d := by
  rw [PiperTts.synthesize] at h
  split at h
  next hte => simp at h
  next hte =>
    cases hb : r.useCache.getD true <;>
      simp only [hb, Bool.false_eq_true, if_false, eq_self_iff_true, if_true] at h
    · split at h
      next e hsy => simp at h
      next channels width rate pcm hsy =>
        split at h
        next d hd =>
          simp only [Prod.mk.injEq, PiperTts.Result.ok.injEq] at h
          obtain ⟨_, hb2, hdur, _⟩ := h
          subst hb2
          exact ⟨d, hd, hdur.symm⟩
        next hd => simp at h
    · split at h
      next bytes0 hlk =>
        split at h
        next d hd =>
          simp only [Prod.mk.injEq, PiperTts.Result.ok.injEq] at h
          obtain ⟨_, hb2, hdur, _⟩ := h
          subst hb2
          exact ⟨d, hd, hdur.symm⟩
        next hd => simp at h
      next hlk =>
        split at h
        next e hsy => simp at h
        next channels width rate pcm hsy =>
          split at h
          next d hd =>
            simp only [Prod.mk.injEq, PiperTts.Result.ok.injEq] at h
            obtain ⟨_, hb2, hdur, _⟩ := h
            subst hb2
            exact ⟨d, hd, hdur.symm⟩
          next hd => simp at h

/-- C8, counterexample: the reported duration_sec is the true header duration
rounded to two decimal places, which is not within floating rounding
tolerance of frameCount/sampleRate: a 5-frame, 8 Hz file has true duration
5/8 = 0.625 s but the handler reports 0.62, an error of exactly 1/200. -/
theorem C8_counterexample :
    (TtsServer.synthesize
        (TtsServer.Env.mk ["m"] (fun _ => 7) (fun _ _ _ => .ok (1, 1, 8, [9, 9, 9, 9, 9])))
        (TtsServer.St.mk [] [] 0 []) (Request.mk "hi" (some "m") (.num 1) (some true))).2 =
      .ok (wavEncode 1 1 8 [9, 9, 9, 9, 9]) (31 / 50) "m" false ∧
    wavDuration (wavEncode 1 1 8 [9, 9, 9, 9, 9]) = some (5 / 8) ∧
    (31 / 50 : ℚ) ≠ 5 / 8 ∧ (5 / 8 : ℚ) - 31 / 50 = 1 / 200 := by
  have hd : wavDuration (wavEncode 1 1 8 [9, 9, 9, 9, 9]) = some (5 / 8) := by
    rw [wavDuration,
      (by decide : wavParse (wavEncode 1 1 8 [9, 9, 9, 9, 9]) = some (8, 1, 1, 5))]
    norm_num
  have hr : pyRound2 (5 / 8) = 31 / 50 := by
    have h62 : roundHalfEven (5 / 8 * 100) = 62 := by
      rw [roundHalfEven]
      norm_num
    rw [pyRound2, h62]
    norm_num
  refine ⟨?_, hd, by norm_num, by norm_num⟩
  rw [TtsServer.synthesize,
    ttsCheck_miss (TtsServer.St.mk [] [] 0 [])
      (Request.mk "hi" (some "m") (.num 1) (some true)) 1 rfl (by decide) rfl]
  dsimp only
  unfold TtsServer.ttsCompute
  simp only [Option.getD_some, Option.getD_none]
  rw [load_model_load
    (TtsServer.Env.mk ["m"] (fun _ => 7) (fun _ _ _ => .ok (1, 1, 8, [9, 9, 9, 9, 9])))
    (TtsServer.St.mk [] [] 0 []) "m" rfl (by decide)]
  dsimp only
  rw [if_neg (by decide : ¬(1 : ℚ) = 0)]
  simp [hd, hr]

/-- C8 (amended): the duration probe is a pure function of the audio bytes
that parses only the container header: on every encoded PCM file it yields
exactly frameCount/sampleRate (frame count = data size / frame size), and
both handlers derive the reported duration from the same probe on the same
bytes whether they were freshly produced or read back from cache — but what
is reported is that value rounded to two decimal places (Python round
half-to-even), not the raw quotient. -/
theorem C8_duration_probe :
    (∀ c w rt : Nat, ∀ p : List Nat, c < 65536 → 8 * w < 65536 → rt < 4294967296 →
      p.length < 4294967296 → c * w ≠ 0 → rt ≠ 0 →
      wavDuration (wavEncode c w rt p) = some (((p.length / (c * w) : Nat) : ℚ) / (rt : ℚ))) ∧
    (∀ env : TtsServer.Env, ∀ st st1 : TtsServer.St, ∀ r : Request, ∀ bytes : List Nat,
      ∀ dur : ℚ, ∀ mn : String, ∀ cached : Bool,
      TtsServer.synthesize env st r = (st1, .ok bytes dur mn cached) →
      ∃ d, wavDuration bytes = some d ∧ dur = pyRound2 d) ∧
    (∀ penv : PiperTts.Env, ∀ pst pst1 : PiperTts.St, ∀ r : Request, ∀ bytes : List Nat,
      ∀ dur : ℚ, ∀ cached : Bool,
      PiperTts.synthesize penv pst r = (pst1, .ok bytes dur cached) →
      ∃ d, wavDuration bytes = some d ∧ dur = pyRound2 d) := by
  refine ⟨fun c w rt p h1 h2 h3 h4 h5 h6 => wavDuration_wavEncode c w rt p h1 h2 h3 h4 h5 h6,
    ?_, ?_⟩
  · intro env st st1 r bytes dur mn cached h
    rw [TtsServer.synthesize] at h
    split at h
    next res heq =>
      injection h with h1 h2
      subst h1; subst h2
      obtain ⟨sp, d, _, _, _, _, hd, hdur, _, _⟩ :=
        ttsCheck_reply_ok_inv st r bytes dur mn cached heq
      exact ⟨d, hd, hdur⟩
    next t mn0 sp0 uc k heq =>
      obtain ⟨stL, v, channels, width, rate, pcm, d, _, _, _, hb, hd, hdur, _, _, _⟩ :=
        ttsCompute_ok_inv env st _ _ _ _ _ st1 bytes dur mn cached h
      exact ⟨d, hd, hdur⟩
  · intro penv pst pst1 r bytes dur cached h
    exact piper_ok_duration penv pst pst1 r bytes dur cached h

/-- C8, witness: the probe on a concrete 4-frame, 8 Hz file returns the exact
header quotient, and a concrete successful synthesis reports exactly the
rounded probe value of its own bytes. -/
theorem C8_duration_probe_witness :
    wavDuration (wavEncode 1 1 8 [9, 9, 9, 9]) =
      some (((([9, 9, 9, 9] : List Nat).length / (1 * 1) : Nat) : ℚ) / ((8 : Nat) : ℚ)) ∧
    ∃ d, wavDuration (wavEncode 1 1 8 [9, 9, 9, 9]) = some d ∧ pyRound2 (1 / 2) = pyRound2 d := by
  have hfirst : TtsServer.synthesize
      (TtsServer.Env.mk ["m"] (fun _ => 7) (fun _ _ _ => .ok (1, 1, 8, [9, 9, 9, 9])))
      (TtsServer.St.mk [] [] 0 []) (Request.mk "hi" (some "m") (.num 1) none) =
      (TtsServer.St.mk [(TtsServer.cache_key "hi" "m" 1, wavEncode 1 1 8 [9, 9, 9, 9])]
          [("m", 7)] 1 [(7, "hi", 1 / 1)],
        .ok (wavEncode 1 1 8 [9, 9, 9, 9]) (pyRound2 (1 / 2)) "m" false) := by
    rw [TtsServer.synthesize,
      ttsCheck_miss (TtsServer.St.mk [] [] 0 []) (Request.mk "hi" (some "m") (.num 1) none) 1
        rfl (by decide) rfl]
    dsimp only
    unfold TtsServer.ttsCompute
    simp only [Option.getD_some, Option.getD_none]
    rw [load_model_load
      (TtsServer.Env.mk ["m"] (fun _ => 7) (fun _ _ _ => .ok (1, 1, 8, [9, 9, 9, 9])))
      (TtsServer.St.mk [] [] 0 []) "m" rfl (by decide)]
    dsimp only
    rw [if_neg (by decide : ¬(1 : ℚ) = 0)]
    have hd : wavDuration (wavEncode 1 1 8 [9, 9, 9, 9]) = some (1 / 2) := by
      have hp : wavParse (wavEncode 1 1 8 [9, 9, 9, 9]) = some (8, 1, 1, 4) := by decide
      rw [wavDuration, hp]
      norm_num
    simp [hd]
  refine ⟨C8_duration_probe.1 1 1 8 [9, 9, 9, 9] (by decide) (by decide) (by decide)
      (by decide) (by decide) (by decide), ?_⟩
  obtain ⟨d, hd, hdur⟩ := C8_duration_probe.2.1
    (TtsServer.Env.mk ["m"] (fun _ => 7) (fun _ _ _ => .ok (1, 1, 8, [9, 9, 9, 9])))
    (TtsServer.St.mk [] [] 0 [])
    (TtsServer.St.mk [(TtsServer.cache_key "hi" "m" 1, wavEncode 1 1 8 [9, 9, 9, 9])]
      [("m", 7)] 1 [(7, "hi", 1 / 1)])
    (Request.mk "hi" (some "m") (.num 1) none)
    (wavEncode 1 1 8 [9, 9, 9, 9]) (pyRound2 (1 / 2)) "m" false hfirst
  exact ⟨d, hd, hdur⟩

/-- C2, counterexample: the handlers have no lock, so with two identical
requests for an uncached key interleaved check-check-compute-compute, each of
the two callers observes a miss and runs its own backend synthesis: the run
records two synthesis invocations, not the claimed exactly one, even though
both callers finish with successful replies. -/
theorem C2_counterexample :
    (TtsServer.runSched
        (TtsServer.Env.mk ["m"] (fun _ => 7) (fun _ _ _ => .ok (1, 1, 8, [9, 9, 9])))
        (Request.mk "hi" (some "m") (.num 1) (some true))
        (TtsServer.St.mk [] [] 0 [], [.start, .start]) [0, 1, 0, 1]).1.synthCalls.length = 2 ∧
    ¬ (TtsServer.runSched
        (TtsServer.Env.mk ["m"] (fun _ => 7) (fun _ _ _ => .ok (1, 1, 8, [9, 9, 9])))
        (Request.mk "hi" (some "m") (.num 1) (some true))
        (TtsServer.St.mk [] [] 0 [], [.start, .start]) [0, 1, 0, 1]).1.synthCalls.length = 1 ∧
    ((TtsServer.runSched
        (TtsServer.Env.mk ["m"] (fun _ => 7) (fun _ _ _ => .ok (1, 1, 8, [9, 9, 9])))
        (Request.mk "hi" (some "m") (.num 1) (some true))
        (TtsServer.St.mk [] [] 0 [], [.start, .start]) [0, 1, 0, 1]).2.map TtsServer.finishedOk)
      = [true, true] := by
  refine ⟨?_, ?_, ?_⟩ <;> decide

/-- C2 (amended): there is no single-flight mechanism.  When two identical
requests for an uncached key are interleaved so that both run the
cache-existence check before either computes, each runs its own backend
synthesis: the backend is invoked twice, the entry is written twice (the
second write shadowing the first, with identical bytes), and both callers
receive the same successful response.  The syntheses are modelled atomically,
so this coarse interleaved behaviour is one the unlocked server can exhibit. -/
theorem C2_no_single_flight (env : TtsServer.Env) (r : Request) (sp d : ℚ) (v : Nat)
    (channels width rate : Nat) (pcm : List Nat)
    (cc : List (String × List Nat)) (lm : List (String × Nat)) (lc : Nat)
    (sc : List (Nat × String × ℚ))
    (hsp : coerceSpeed r.speed = .ok sp) (ht : r.text ≠ "")
    (huc : r.useCache.getD true = true)
    (hlm : alookup lm (r.model.getD "en_US-lessac-medium") = some v)
    (hz : sp ≠ 0)
    (hsy : env.synth v r.text (1 / sp) = .ok (channels, width, rate, pcm))
    (hd : wavDuration (wavEncode channels width rate pcm) = some d)
    (hcc : alookup cc
      (TtsServer.cache_key r.text (r.model.getD "en_US-lessac-medium") sp) = none) :
    TtsServer.runSched env r (TtsServer.St.mk cc lm lc sc, [.start, .start]) [0, 1, 0, 1] =
      (TtsServer.St.mk
        ((TtsServer.cache_key r.text (r.model.getD "en_US-lessac-medium") sp,
            wavEncode channels width rate pcm) ::
          (TtsServer.cache_key r.text (r.model.getD "en_US-lessac-medium") sp,
            wavEncode channels width rate pcm) :: cc)
        lm lc ((v, r.text, 1 / sp) :: (v, r.text, 1 / sp) :: sc),
       [TtsServer.Phase.finished (.ok (wavEncode channels width rate pcm) (pyRound2 d)
          (r.model.getD "en_US-lessac-medium") false),
        TtsServer.Phase.finished (.ok (wavEncode channels width rate pcm) (pyRound2 d)
          (r.model.getD "en_US-lessac-medium") false)]) ∧
    (TtsServer.runSched env r (TtsServer.St.mk cc lm lc sc, [.start, .start])
        [0, 1, 0, 1]).1.synthCalls.length = sc.length + 2 ∧
    alookup (TtsServer.runSched env r (TtsServer.St.mk cc lm lc sc, [.start, .start])
        [0, 1, 0, 1]).1.cache
      (TtsServer.cache_key r.text (r.model.getD "en_US-lessac-medium") sp) =
      some (wavEncode channels width rate pcm) := by
  have hcheck : TtsServer.ttsCheck (TtsServer.St.mk cc lm lc sc) r =
      .miss r.text (r.model.getD "en_US-lessac-medium") sp true
        (TtsServer.cache_key r.text (r.model.getD "en_US-lessac-medium") sp) := by
    have h0 := ttsCheck_miss (TtsServer.St.mk cc lm lc sc) r sp hsp ht hcc
    rwa [huc] at h0
  have hcomp : ∀ cc2 : List (String × List Nat), ∀ sc2 : List (Nat × String × ℚ),
      TtsServer.ttsCompute env (TtsServer.St.mk cc2 lm lc sc2) r.text
          (r.model.getD "en_US-lessac-medium") sp true
          (TtsServer.cache_key r.text (r.model.getD "en_US-lessac-medium") sp) =
        (TtsServer.St.mk
          ((TtsServer.cache_key r.text (r.model.getD "en_US-lessac-medium") sp,
              wavEncode channels width rate pcm) :: cc2)
          lm lc ((v, r.text, 1 / sp) :: sc2),
          .ok (wavEncode channels width rate pcm) (pyRound2 d)
            (r.model.getD "en_US-lessac-medium") false) := by
    intro cc2 sc2
    unfold TtsServer.ttsCompute
    rw [load_model_hit env (TtsServer.St.mk cc2 lm lc sc2) _ v hlm]
    dsimp only
    rw [if_neg hz]
    simp only [hsy]
    simp only [hd]
    simp
  have h1 : TtsServer.stepThread env r (TtsServer.St.mk cc lm lc sc, [.start, .start]) 0 =
      (TtsServer.St.mk cc lm lc sc,
        [.missed r.text (r.model.getD "en_US-lessac-medium") sp true
          (TtsServer.cache_key r.text (r.model.getD "en_US-lessac-medium") sp), .start]) := by
    simp only [TtsServer.stepThread, List.get?, hcheck, List.set]
  have h2 : TtsServer.stepThread env r (TtsServer.St.mk cc lm lc sc,
      [.missed r.text (r.model.getD "en_US-lessac-medium") sp true
        (TtsServer.cache_key r.text (r.model.getD "en_US-lessac-medium") sp), .start]) 1 =
      (TtsServer.St.mk cc lm lc sc,
        [.missed r.text (r.model.getD "en_US-lessac-medium") sp true
          (TtsServer.cache_key r.text (r.model.getD "en_US-lessac-medium") sp),
         .missed r.text (r.model.getD "en_US-lessac-medium") sp true
          (TtsServer.cache_key r.text (r.model.getD "en_US-lessac-medium") sp)]) := by
    simp only [TtsServer.stepThread, List.get?, hcheck, List.set]
  have h3 : TtsServer.stepThread env r (TtsServer.St.mk cc lm lc sc,
      [.missed r.text (r.model.getD "en_US-lessac-medium") sp true
        (TtsServer.cache_key r.text (r.model.getD "en_US-lessac-medium") sp),
       .missed r.text (r.model.getD "en_US-lessac-medium") sp true
        (TtsServer.cache_key r.text (r.model.getD "en_US-lessac-medium") sp)]) 0 =
      (TtsServer.St.mk
        ((TtsServer.cache_key r.text (r.model.getD "en_US-lessac-medium") sp,
            wavEncode channels width rate pcm) :: cc)
        lm lc ((v, r.text, 1 / sp) :: sc),
        [.finished (.ok (wavEncode channels width rate pcm) (pyRound2 d)
            (r.model.getD "en_US-lessac-medium") false),
         .missed r.text (r.model.getD "en_US-lessac-medium") sp true
          (TtsServer.cache_key r.text (r.model.getD "en_US-lessac-medium") sp)]) := by
    simp only [TtsServer.stepThread, List.get?, hcomp cc sc, List.set]
  have h4 : TtsServer.stepThread env r (TtsServer.St.mk
      ((TtsServer.cache_key r.text (r.model.getD "en_US-lessac-medium") sp,
          wavEncode channels width rate pcm) :: cc)
      lm lc ((v, r.text, 1 / sp) :: sc),
      [.finished (.ok (wavEncode channels width rate pcm) (pyRound2 d)
          (r.model.getD "en_US-lessac-medium") false),
       .missed r.text (r.model.getD "en_US-lessac-medium") sp true
        (TtsServer.cache_key r.text (r.model.getD "en_US-lessac-medium") sp)]) 1 =
      (TtsServer.St.mk
        ((TtsServer.cache_key r.text (r.model.getD "en_US-lessac-medium") sp,
            wavEncode channels width rate pcm) ::
          (TtsServer.cache_key r.text (r.model.getD "en_US-lessac-medium") sp,
            wavEncode channels width rate pcm) :: cc)
        lm lc ((v, r.text, 1 / sp) :: (v, r.text, 1 / sp) :: sc),
        [.finished (.ok (wavEncode channels width rate pcm) (pyRound2 d)
            (r.model.getD "en_US-lessac-medium") false),
         .finished (.ok (wavEncode channels width rate pcm) (pyRound2 d)
            (r.model.getD "en_US-lessac-medium") false)]) := by
    simp only [TtsServer.stepThread, List.get?,
      hcomp ((TtsServer.cache_key r.text (r.model.getD "en_US-lessac-medium") sp,
        wavEncode channels width rate pcm) :: cc) ((v, r.text, 1 / sp) :: sc), List.set]
  have hmain : TtsServer.runSched env r
      (TtsServer.St.mk cc lm lc sc, [.start, .start]) [0, 1, 0, 1] =
      (TtsServer.St.mk
        ((TtsServer.cache_key r.text (r.model.getD "en_US-lessac-medium") sp,
            wavEncode channels width rate pcm) ::
          (TtsServer.cache_key r.text (r.model.getD "en_US-lessac-medium") sp,
            wavEncode channels width rate pcm) :: cc)
        lm lc ((v, r.text, 1 / sp) :: (v, r.text, 1 / sp) :: sc),
       [TtsServer.Phase.finished (.ok (wavEncode channels width rate pcm) (pyRound2 d)
          (r.model.getD "en_US-lessac-medium") false),
        TtsServer.Phase.finished (.ok (wavEncode channels width rate pcm) (pyRound2 d)
          (r.model.getD "en_US-lessac-medium") false)]) := by
    simp only [TtsServer.runSched]
    rw [h1, h2, h3, h4]
  refine ⟨hmain, ?_, ?_⟩
  · rw [hmain]
    simp
  · rw [hmain]
    simp [alookup]

/-- C2, witness: the amended statement at a concrete request against a
pre-loaded model and empty cache: two invocations are recorded and the key
ends up cached with the synthesized bytes. -/
theorem C2_no_single_flight_witness :
    (TtsServer.runSched
        (TtsServer.Env.mk ["m"] (fun _ => 7) (fun _ _ _ => .ok (1, 1, 8, [9, 9, 9])))
        (Request.mk "hi" (some "m") (.num 1) (some true))
        (TtsServer.St.mk [] [("m", 7)] 1 [], [.start, .start])
        [0, 1, 0, 1]).1.synthCalls.length = List.length ([] : List (Nat × String × ℚ)) + 2 ∧
    alookup (TtsServer.runSched
        (TtsServer.Env.mk ["m"] (fun _ => 7) (fun _ _ _ => .ok (1, 1, 8, [9, 9, 9])))
        (Request.mk "hi" (some "m") (.num 1) (some true))
        (TtsServer.St.mk [] [("m", 7)] 1 [], [.start, .start])
        [0, 1, 0, 1]).1.cache
      (TtsServer.cache_key "hi" "m" 1) = some (wavEncode 1 1 8 [9, 9, 9]) :=
  ⟨(C2_no_single_flight
      (TtsServer.Env.mk ["m"] (fun _ => 7) (fun _ _ _ => .ok (1, 1, 8, [9, 9, 9])))
      (Request.mk "hi" (some "m") (.num 1) (some true)) 1 (3 / 8) 7 1 1 8 [9, 9, 9]
      [] [("m", 7)] 1 [] rfl (by decide) rfl rfl (by decide) rfl
      (by rw [wavDuration,
            (by decide : wavParse (wavEncode 1 1 8 [9, 9, 9]) = some (8, 1, 1, 3))]
          simp)
      rfl).2.1,
   (C2_no_single_flight
      (TtsServer.Env.mk ["m"] (fun _ => 7) (fun _ _ _ => .ok (1, 1, 8, [9, 9, 9])))
      (Request.mk "hi" (some "m") (.num 1) (some true)) 1 (3 / 8) 7 1 1 8 [9, 9, 9]
      [] [("m", 7)] 1 [] rfl (by decide) rfl rfl (by decide) rfl
      (by rw [wavDuration,
            (by decide : wavParse (wavEncode 1 1 8 [9, 9, 9]) = some (8, 1, 1, 3))]
          simp)
      rfl).2.2⟩

/-- C6, counterexample: a request with positive-looking but zero speed (a
non-positive speedFactor) is not rejected as InvalidRequest: it passes text
validation, resolves and loads the model (the registry grows and the load
counter increments), and only then fails with a caught ZeroDivisionError,
surfaced as a 500-class server error rather than a 400-class rejection. -/
theorem C6_counterexample :
    TtsServer.synthesize
        (TtsServer.Env.mk ["m"] (fun _ => 7) (fun _ _ _ => .ok (1, 1, 8, [0])))
        (TtsServer.St.mk [] [] 0 [])
        (Request.mk "hi" (some "m") (.num 0) (some true)) =
      (TtsServer.St.mk [] [("m", 7)] 1 [], .serverError "float division by zero") := rfl

/-- C6 (amended): requests with empty (or missing) text are rejected as
InvalidRequest (400) before any cache lookup, cache write or model
resolution, in both servers, provided the speed field coerces; a non-positive
speedFactor, however, is not validated at all — it flows into the compute
path (see the counterexample, where speed 0 resolves the model and then fails
as a 500-class ZeroDivisionError). -/
theorem C6_empty_text_rejected (env : TtsServer.Env) (penv : PiperTts.Env)
    (st : TtsServer.St) (pst : PiperTts.St) (r : Request) (sp : ℚ)
    (hsp : coerceSpeed r.speed = .ok sp) (ht : r.text = "") :
    TtsServer.synthesize env st r = (st, .badRequest "Missing text parameter") ∧
    PiperTts.synthesize penv pst r = (pst, .badRequest "Text is required") := by
  constructor
  · have hc : TtsServer.ttsCheck st r = .reply (.badRequest "Missing text parameter") := by
      rw [TtsServer.ttsCheck, hsp, ht]
      rfl
    rw [TtsServer.synthesize, hc]
  · rw [PiperTts.synthesize, ht]
    rfl

/-- C6, witness: a concrete empty-text request is turned away by both
handlers with the 400 reply and untouched state. -/
theorem C6_empty_text_rejected_witness :
    TtsServer.synthesize (TtsServer.Env.mk [] (fun _ => 0) (fun _ _ _ => .error "x"))
        (TtsServer.St.mk [] [] 0 []) (Request.mk "" none (.num 1) (some true)) =
      (TtsServer.St.mk [] [] 0 [], .badRequest "Missing text parameter") ∧
    PiperTts.synthesize (PiperTts.Env.mk (fun _ _ => .error "x"))
        (PiperTts.St.mk [] []) (Request.mk "" none (.num 1) (some true)) =
      (PiperTts.St.mk [] [], .badRequest "Text is required") :=
  C6_empty_text_rejected (TtsServer.Env.mk [] (fun _ => 0) (fun _ _ _ => .error "x"))
    (PiperTts.Env.mk (fun _ _ => .error "x")) (TtsServer.St.mk [] [] 0 [])
    (PiperTts.St.mk [] []) (Request.mk "" none (.num 1) (some true)) 1 rfl rfl
